import Mathlib

/-!
Shallow embedding of the container session orchestrator of this repository:
the Docker `ContainerManager` (utils/docker.js), the Windows console handler
(`WindowsConsoleHandler`), the WebSocket console / stats handlers
(websocket/console.js) and the container create route (routes/containers.js),
together with proofs about their create, console-session, stats-subscription
and resource-translation behaviour.

Conventions of the embedding:
* JavaScript numbers holding stats counters (which get divided) are modelled
  as `ℚ`; integral sizes, intervals and timestamps as `Nat`/`Int`.
* JavaScript strings are modelled as `String`; the memory-limit parser works
  on the underlying character list (`List Char`), the JS string contents.
* JavaScript `x || d` defaulting on possibly-absent fields is modelled on
  `Option` values, with the falsiness of `0` made explicit where it matters.
* Fallible external calls (Docker engine calls, stream writes) are modelled
  as explicit `Except`/`Bool` parameters of the embedded functions.
* `socket.emit` calls, engine calls, stream writes and each evaluation of the
  ownership test are recorded in an event trace (`Ev`), in program order.
* Database rows (Prisma `container`, `user`, `containerLog`) are modelled as
  lists inside a `DB` state threaded through the stateful handlers.
-/

namespace Ptrelite

/-! ## Docker stats sample (dockerode single-shot stats object)

Fields mirror the parts of the Docker stats JSON that the source reads:
`cpu_stats.cpu_usage.total_usage`, `cpu_stats.system_cpu_usage`,
`cpu_stats.online_cpus`, `precpu_stats.cpu_usage?.total_usage`,
`precpu_stats.system_cpu_usage`, `memory_stats.usage`, `memory_stats.limit`.
Possibly-absent fields are `Option`s (dockerode omits `precpu` data on the
first sample and `online_cpus` on some platforms). -/

structure CpuUsage where
  total_usage : ℚ
  deriving DecidableEq, Repr

structure CpuStats where
  cpu_usage : CpuUsage
  system_cpu_usage : ℚ
  online_cpus : Option ℕ
  deriving DecidableEq, Repr

structure PreCpuStats where
  cpu_usage : Option CpuUsage
  system_cpu_usage : Option ℚ
  deriving DecidableEq, Repr

structure MemoryStats where
  usage : Option ℚ
  limit : Option ℚ
  deriving DecidableEq, Repr

structure DockerStats where
  cpu_stats : CpuStats
  precpu_stats : PreCpuStats
  memory_stats : MemoryStats
  deriving DecidableEq, Repr

/-- models `stats.cpu_stats.cpu_usage.total_usage - (stats.precpu_stats.cpu_usage?.total_usage || 0)`
from `ContainerManager.getContainerStats` (utils/docker.js). -/
def cpuDelta (s : DockerStats) : ℚ :=
  s.cpu_stats.cpu_usage.total_usage -
    (match s.precpu_stats.cpu_usage with
     | some u => u.total_usage
     | none => 0)

/-- models `stats.cpu_stats.system_cpu_usage - (stats.precpu_stats.system_cpu_usage || 0)`. -/
def systemDelta (s : DockerStats) : ℚ :=
  s.cpu_stats.system_cpu_usage - (s.precpu_stats.system_cpu_usage.getD 0)

/-- models `stats.memory_stats.usage || 0`. -/
def memoryUsageOf (s : DockerStats) : ℚ := s.memory_stats.usage.getD 0

/-- models `stats.memory_stats.limit || 0`. -/
def memoryLimitOf (s : DockerStats) : ℚ := s.memory_stats.limit.getD 0

/-- models `stats.cpu_stats.online_cpus || 1` from
`WindowsConsoleHandler.calculateCPUPercent`: a present-but-zero count is
falsy in JS and also defaults to 1. -/
def onlineCpusOr1 (s : DockerStats) : ℕ :=
  match s.cpu_stats.online_cpus with
  | some n => if n = 0 then 1 else n
  | none => 1

/-- Numeric result of `ContainerManager.getContainerStats` before string
formatting (the source renders `cpuPercent`/`memoryPercent` with
`toFixed(2)` and the byte sizes with `formatBytes`; the numbers themselves
are computed exactly as below). -/
structure StatsResult where
  cpuPercent : ℚ
  memoryUsage : ℚ
  memoryLimit : ℚ
  memoryPercent : ℚ
  deriving DecidableEq, Repr

/-- models the computation inside `ContainerManager.getContainerStats`
(utils/docker.js):
`cpuPercent = systemDelta > 0 ? (cpuDelta / systemDelta) * 100 : 0` and
`memoryPercent = memoryLimit > 0 ? (memoryUsage / memoryLimit) * 100 : 0`. -/
def getContainerStats (s : DockerStats) : StatsResult :=
  { cpuPercent := if systemDelta s > 0 then (cpuDelta s / systemDelta s) * 100 else 0
  , memoryUsage := memoryUsageOf s
  , memoryLimit := memoryLimitOf s
  , memoryPercent :=
      if memoryLimitOf s > 0 then (memoryUsageOf s / memoryLimitOf s) * 100 else 0 }

/-- models `WindowsConsoleHandler.calculateCPUPercent`:
`if (systemDelta > 0 && cpuDelta > 0) return (cpuDelta / systemDelta) * cpuCount * 100; return 0`
with `cpuCount = stats.cpu_stats.online_cpus || 1`. -/
def calculateCPUPercent (s : DockerStats) : ℚ :=
  if systemDelta s > 0 ∧ cpuDelta s > 0 then
    (cpuDelta s / systemDelta s) * (onlineCpusOr1 s : ℚ) * 100
  else 0

/-! ## Memory / CPU resource translation (`ContainerManager.parseMemory`
and the `HostConfig` built in `ContainerManager.createContainer`) -/

/-- models the `units` lookup object of `ContainerManager.parseMemory`:
`b ↦ 1, k ↦ 1024, m ↦ 1024², g ↦ 1024³`, anything else absent. -/
def units (c : Char) : Option ℕ :=
  if c = 'b' then some 1
  else if c = 'k' then some 1024
  else if c = 'm' then some (1024 * 1024)
  else if c = 'g' then some (1024 * 1024 * 1024)
  else none

/-- models `parseInt` applied to the all-digit capture group `match[1]`. -/
def parseIntDigits (ds : List Char) : ℕ :=
  ds.foldl (fun a c => 10 * a + (c.toNat - 48)) 0

/-- models `ContainerManager.parseMemory` on a string argument:
`memory.toLowerCase().match(/^(\d+)([bkmg]?)$/)`; on a match the result is
`parseInt(match[1]) * units[match[2] || 'b']`, otherwise the default
`512 * 1024 * 1024`.  The regex match is embedded by splitting the lowered
character list at its maximal digit run: the string matches exactly when the
run is nonempty and what follows is empty or a single unit character.
`parseMemoryAux` consumes that split (digit run, remainder). -/
def parseMemoryAux (ds rest : List Char) : ℕ :=
  if ds = [] then 512 * 1024 * 1024
  else
    match rest with
    | [] => parseIntDigits ds * 1
    | [c] =>
        match units c with
        | some m => parseIntDigits ds * m
        | none => 512 * 1024 * 1024
    | _ => 512 * 1024 * 1024

def parseMemory (memory : List Char) : ℕ :=
  parseMemoryAux ((memory.map Char.toLower).takeWhile Char.isDigit)
    ((memory.map Char.toLower).dropWhile Char.isDigit)

/-- checks whether a character is one of the memory unit letters `b k m g`,
matched case-insensitively (the source lowercases the string first). -/
def isMemUnit (c : Char) : Bool := (units c.toLower).isSome

/-- recogniser for the tail of the memory-string shape: zero or more digits
followed by at most one unit letter. -/
def memDigitsThenUnit : List Char → Bool
  | [] => true
  | [c] => c.isDigit || isMemUnit c
  | c :: c2 :: rest => c.isDigit && memDigitsThenUnit (c2 :: rest)

/-- recogniser, written independently of `parseMemory`, for the claimed
memory-string shape: one or more digits followed by an optional unit letter
`b`, `k`, `m` or `g` (case-insensitive). -/
def memShape : List Char → Bool
  | [] => false
  | c :: cs => c.isDigit && memDigitsThenUnit cs

/-- Resource fields of the Docker `HostConfig` built in
`ContainerManager.createContainer`. -/
structure HostConfig where
  Memory : ℕ
  CpuQuota : ℤ
  CpuPeriod : ℕ
  deriving DecidableEq, Repr

/-- models the resource translation of `ContainerManager.createContainer`
(utils/docker.js): `Memory: this.parseMemory(memory)`,
`CpuQuota: Math.floor(parseFloat(cpus) * 100000)`, `CpuPeriod: 100000`.
The CPU share `cpus` is modelled by its numeric value. -/
def hostConfig (memory : List Char) (cpus : ℚ) : HostConfig :=
  { Memory := parseMemory memory
  , CpuQuota := Int.floor (cpus * 100000)
  , CpuPeriod := 100000 }

/-! ## Persisted records (Prisma rows the orchestrator reads/writes) -/

structure ContainerRec where
  id : String
  dockerId : Option String
  status : String
  ownerId : String
  deriving DecidableEq, Repr

structure UserRec where
  id : String
  role : String
  deriving DecidableEq, Repr

structure LogEntry where
  containerId : String
  command : String
  output : Option String
  exitCode : Option Int
  deriving DecidableEq, Repr

structure DB where
  containers : List ContainerRec
  users : List UserRec
  logs : List LogEntry
  deriving DecidableEq, Repr

/-- models `prisma.container.findUnique({ where: { id } })`. -/
def DB.findContainer (db : DB) (id : String) : Option ContainerRec :=
  db.containers.find? (fun c => c.id == id)

/-- models `prisma.user.findUnique({ where: { id } })`. -/
def DB.findUser (db : DB) (id : String) : Option UserRec :=
  db.users.find? (fun u => u.id == id)

/-- models `prisma.containerLog.create` (append-only). -/
def DB.logCreate (db : DB) (e : LogEntry) : DB :=
  { db with logs := db.logs ++ [e] }

/-- models `prisma.container.delete({ where: { id } })`. -/
def DB.deleteContainer (db : DB) (id : String) : DB :=
  { db with containers := db.containers.filter (fun c => c.id != id) }

/-- counts CONSOLE_DISCONNECT rows in the container log table. -/
def countDisconnect (db : DB) : ℕ :=
  (db.logs.filter (fun e => e.command == "CONSOLE_DISCONNECT")).length

/-! ## Event trace -/

/-- One observable step of a websocket handler: a `socket.emit`, an engine
(dockerode) call, a write to the exec stream, a stream teardown, or one
evaluation of the ownership test
`user.role !== ADMIN && container.ownerId !== userId`. -/
inductive Ev where
  | emitMsg (event : String) (message : String)
  | emitErr (event : String) (message : String) (error : String)
  | emitConnected (containerId : String)
  | emitSubscribed (containerId : String) (interval : ℕ)
  | emitStatsData (containerId : String) (stats : String)
  | engine (op : String) (arg : String)
  | ownershipEval (role : String) (ownerId : String) (userId : String)
  | streamWrite (data : String)
  | streamDestroy
  deriving DecidableEq, Repr

/-- tests whether an event is an engine (dockerode) call. -/
def Ev.isEngine : Ev → Bool
  | Ev.engine _ _ => true
  | _ => false

/-- tests whether an event is an evaluation of the ownership test. -/
def Ev.isOwnershipEval : Ev → Bool
  | Ev.ownershipEval _ _ _ => true
  | _ => false

/-- number of engine calls in a trace. -/
def countEngineCalls (evs : List Ev) : ℕ := (evs.filter Ev.isEngine).length

/-- number of ownership-test evaluations in a trace. -/
def countOwnershipEvals (evs : List Ev) : ℕ := (evs.filter Ev.isOwnershipEval).length

/-! ## Console session state machine (websocket/console.js, class ConsoleSession)

The mutable fields of the JS object are a record; the exec handle and the
duplex stream are modelled by their presence (`dockerExec`, `hasStream`),
since the session logic only branches on their nullness.  The process-wide
`activeSessions` map lives in `World` next to the database. -/

structure ConsoleSession where
  socketId : String
  containerId : String
  userId : String
  dockerExec : Bool
  hasStream : Bool
  isActive : Bool
  startTime : ℕ
  commandHistory : List (String × ℕ)
  deriving DecidableEq, Repr

structure World where
  db : DB
  activeSessions : List (String × ConsoleSession)
  deriving DecidableEq, Repr

/-- models `ConsoleSession.cleanup` (websocket/console.js): set
`isActive = false`; destroy and null the stream if present; null the exec
handle; `activeSessions.delete(this.socket.id)`; append a
CONSOLE_DISCONNECT log row recording the elapsed duration.  Returns the
updated world, the updated session object and the emitted trace. -/
def ConsoleSession.cleanup (w : World) (s : ConsoleSession) (now : ℕ) :
    World × ConsoleSession × List Ev :=
  let destroyEvs := if s.hasStream then [Ev.streamDestroy] else []
  let s2 := { s with isActive := false, hasStream := false, dockerExec := false }
  let sessions := w.activeSessions.filter (fun p => p.1 != s.socketId)
  let entry : LogEntry :=
    { containerId := s.containerId
    , command := "CONSOLE_DISCONNECT"
    , output := some ("Console session ended. Duration: " ++ toString (now - s.startTime) ++ "ms")
    , exitCode := some 0 }
  ({ db := w.db.logCreate entry, activeSessions := sessions }, s2, destroyEvs)

/-- models the catch block of `ConsoleSession.start`: emit
`console:error` with the fixed message and the thrown error text, then run
`cleanup()`.  `pre` is the trace accumulated before the throw. -/
def ConsoleSession.startCatch (w : World) (s : ConsoleSession) (now : ℕ)
    (errMsg : String) (pre : List Ev) : World × ConsoleSession × List Ev :=
  let errEv := Ev.emitErr "console:error" "Failed to start console session" errMsg
  let r := ConsoleSession.cleanup w s now
  (r.1, r.2.1, pre ++ [errEv] ++ r.2.2)

/-- models `ConsoleSession.start` (websocket/console.js): look up the
container record, throw 'Container not found' if absent; look up the
requesting user and evaluate the ownership test
`user.role !== 'ADMIN' && container.ownerId !== this.userId`, throwing
'Access denied to this container' on failure; then require a Docker id and
RUNNING status; then call `containerManager.execCommand` (the engine call,
whose success is the `execOk` parameter), wire the stream, emit
`console:connected` and append a CONSOLE_CONNECT log row.  Every throw is
routed through the catch block (`startCatch`). -/
def ConsoleSession.start (w : World) (s : ConsoleSession) (execOk : Bool) (now : ℕ) :
    World × ConsoleSession × List Ev :=
  match w.db.findContainer s.containerId with
  | none => ConsoleSession.startCatch w s now "Container not found" []
  | some container =>
    match w.db.findUser s.userId with
    | none =>
        ConsoleSession.startCatch w s now
          "TypeError: Cannot read properties of null (reading role)" []
    | some user =>
        let checkEv := [Ev.ownershipEval user.role container.ownerId s.userId]
        if user.role != "ADMIN" && container.ownerId != s.userId then
          ConsoleSession.startCatch w s now "Access denied to this container" checkEv
        else if container.dockerId.isNone then
          ConsoleSession.startCatch w s now "Container has no Docker ID" checkEv
        else if container.status != "RUNNING" then
          ConsoleSession.startCatch w s now "Container is not running" checkEv
        else
          let dockerId := container.dockerId.getD ""
          let execEv := Ev.engine "execCommand" dockerId
          if execOk then
            let s1 := { s with dockerExec := true, hasStream := true, isActive := true }
            let entry : LogEntry :=
              { containerId := s.containerId
              , command := "CONSOLE_CONNECT"
              , output := some "Console session started"
              , exitCode := some 0 }
            let w1 := { w with db := w.db.logCreate entry }
            (w1, s1, checkEv ++ [execEv, Ev.emitConnected s.containerId])
          else
            ConsoleSession.startCatch w s now "engine exec failed" (checkEv ++ [execEv])

/-- models `ConsoleSession.sendCommand`: when inactive or streamless, emit
`console:error` 'Console session not active' and return; otherwise push to
the bounded history (`slice(-100)` keeps the last 100 entries), write
`command + '\n'` to the stream (`writeOk` models the write not throwing)
and append a log row with the command truncated to 1000 characters. -/
def ConsoleSession.sendCommand (w : World) (s : ConsoleSession) (command : String)
    (now : ℕ) (writeOk : Bool) : World × ConsoleSession × List Ev :=
  if !s.isActive || !s.hasStream then
    (w, s, [Ev.emitMsg "console:error" "Console session not active"])
  else
    let hist := s.commandHistory ++ [(command, now)]
    let hist2 := if hist.length > 100 then hist.drop (hist.length - 100) else hist
    let s1 := { s with commandHistory := hist2 }
    if writeOk then
      let entry : LogEntry :=
        { containerId := s.containerId
        , command := command.take 1000
        , output := none
        , exitCode := none }
      let w1 := { w with db := w.db.logCreate entry }
      (w1, s1, [Ev.streamWrite (command ++ "\n")])
    else
      (w, s1, [Ev.emitErr "console:error" "Failed to send command" "write failed"])

/-- models `ConsoleSession.sendInput`: when inactive or streamless it
returns silently (no emit, no write); otherwise it writes the raw input to
the stream, emitting `console:error` only if the write itself throws. -/
def ConsoleSession.sendInput (s : ConsoleSession) (input : String) (writeOk : Bool) :
    ConsoleSession × List Ev :=
  if !s.isActive || !s.hasStream then (s, [])
  else if writeOk then (s, [Ev.streamWrite input])
  else (s, [Ev.emitErr "console:error" "Failed to send input" "write failed"])

/-- models the `console:connect` socket handler: reject a missing container
id and a duplicate session for this socket; otherwise construct the session,
register it in `activeSessions`, and run `start()`.  The JS map stores a
mutable reference to the session object, so after a successful start the
registry entry is written back with the updated session state. -/
def consoleConnect (w : World) (socketId userId containerId : String)
    (execOk : Bool) (now : ℕ) : World × Option ConsoleSession × List Ev :=
  if containerId == "" then
    (w, none, [Ev.emitMsg "console:error" "Container ID is required"])
  else if (w.activeSessions.find? (fun p => p.1 == socketId)).isSome then
    (w, none, [Ev.emitMsg "console:error" "Console session already active"])
  else
    let session : ConsoleSession :=
      { socketId := socketId, containerId := containerId, userId := userId
      , dockerExec := false, hasStream := false, isActive := false
      , startTime := now, commandHistory := [] }
    let w1 := { w with activeSessions := w.activeSessions ++ [(socketId, session)] }
    let r := ConsoleSession.start w1 session execOk now
    let w3 :=
      if r.2.1.isActive then
        { db := r.1.db
        , activeSessions := r.1.activeSessions.map
            (fun p => if p.1 == socketId then (p.1, r.2.1) else p) }
      else r.1
    (w3, some r.2.1, r.2.2)

/-! ## Stats subscription (websocket/console.js, stats namespace) -/

/-- The per-connection `setInterval` handle, with the values the interval
callback closes over: the clamped delay and the Docker id read from the
container record at subscribe time. -/
structure StatsTimer where
  intervalMs : ℕ
  dockerId : String
  deriving DecidableEq, Repr

/-- models `Math.max(1000, Math.min(10000, interval))`. -/
def clampInterval (interval : ℕ) : ℕ := max 1000 (min 10000 interval)

/-- models the `stats:subscribe` handler: validate the container id, look
the record up, evaluate the ownership test once, require a Docker id and
RUNNING status, clear any previous interval, install the new interval with
the clamped delay, and acknowledge with `stats:subscribed` carrying the
destructured `interval` value.  Returns the trace and the connection's
interval handle after the call (`prev` is kept on every early return). -/
def statsSubscribe (db : DB) (user : UserRec) (containerId : String)
    (interval : ℕ) (prev : Option StatsTimer) : List Ev × Option StatsTimer :=
  if containerId == "" then
    ([Ev.emitMsg "stats:error" "Container ID is required"], prev)
  else
    match db.findContainer containerId with
    | none => ([Ev.emitMsg "stats:error" "Container not found"], prev)
    | some container =>
        let checkEv := Ev.ownershipEval user.role container.ownerId user.id
        if user.role != "ADMIN" && container.ownerId != user.id then
          ([checkEv, Ev.emitMsg "stats:error" "Access denied to this container"], prev)
        else if container.dockerId.isNone || container.status != "RUNNING" then
          ([checkEv, Ev.emitMsg "stats:error" "Container is not running"], prev)
        else
          let timer : StatsTimer :=
            { intervalMs := clampInterval interval
            , dockerId := container.dockerId.getD "" }
          ([checkEv, Ev.emitSubscribed containerId interval], some timer)

/-- models one tick of the installed `setInterval` callback: call
`containerManager.getContainerStats(container.dockerId)` on the Docker id
captured at subscribe time and emit `stats:data`, or emit `stats:error` if
the engine call rejects.  The callback consults neither the database nor
the user: `engineStats` is the engine, `cid` the captured `containerId`. -/
def statsTick (timer : StatsTimer) (engineStats : String → Except String String)
    (cid : String) : List Ev :=
  match engineStats timer.dockerId with
  | Except.ok stats =>
      [Ev.engine "getContainerStats" timer.dockerId, Ev.emitStatsData cid stats]
  | Except.error e =>
      [Ev.engine "getContainerStats" timer.dockerId,
       Ev.emitErr "stats:error" "Failed to get container stats" e]

/-! ## Container create route (routes/containers.js, POST /)

Only the try/catch at the end of the handler is modelled (the claims are
about what happens after all pre-checks pass): insert the provisional
record, call the engine, update the record with the Docker id, and on any
failure run the catch block.  The catch block evaluates the expression
`container?.id` — but `container` is declared with `const` INSIDE the try
block, so by JS block scoping it is not visible in the catch block: the
evaluation throws a ReferenceError, which the inner try/catch around the
delete swallows (it only logs the cleanup error), and the original error is
rethrown.  The identifier environment of the catch block is modelled
explicitly so that this scoping is part of the embedding. -/

/-- Identifiers bound in the handler scope that encloses the catch block of
the create route (its parameters and the `const`s declared before the try).
`container` and `dockerContainer` are declared inside the try block and are
therefore absent. -/
def createCatchScope : List String :=
  ["req", "res", "errors", "name", "image", "cmd", "env", "ports", "resources",
   "userId", "userRole", "canCreateContainer", "allowedImages",
   "imageWithoutTag", "isImageAllowed", "prisma", "existingContainer",
   "containerManager", "error"]

/-- models resolving an identifier against a scope: an absent identifier
throws a ReferenceError. -/
def lookupIdent (scope : List String) (x : String) : Except String Unit :=
  if x ∈ scope then Except.ok () else
    Except.error ("ReferenceError: " ++ x ++ " is not defined")

/-- models the catch block's compensation attempt
`try { await prisma.container.delete({ where: { id: container?.id } }) } catch (cleanupError) { logger.error(...) }`:
evaluating `container?.id` first resolves the identifier `container`; since
it is not in scope here, a ReferenceError is thrown before the delete is
issued and the inner catch leaves the database unchanged. -/
def createCompensate (db : DB) (provisionalId : String) : DB :=
  match lookupIdent createCatchScope "container" with
  | Except.ok _ => db.deleteContainer provisionalId
  | Except.error _ => db

structure CreateInput where
  name : String
  image : String
  userId : String
  deriving DecidableEq, Repr

inductive CreateOutcome where
  | success (created : ContainerRec)
  | failure (err : String)
  deriving DecidableEq, Repr

/-- models the try/catch of the create handler: (1) insert the provisional
record (status CREATED, no Docker id, fresh id `freshId`); (2) call
`containerManager.createContainer` (`engine` is its result: a Docker id or
a thrown error); (3) update the record with the Docker id (`updateOk`
models that update not throwing); on a throw at (2) or (3) the catch block
runs `createCompensate` and rethrows the original error. -/
def createHandler (db : DB) (inp : CreateInput) (freshId : String)
    (engine : Except String String) (updateOk : Bool) : DB × CreateOutcome :=
  let provisional : ContainerRec :=
    { id := freshId, dockerId := none, status := "CREATED", ownerId := inp.userId }
  let db1 : DB := { db with containers := db.containers ++ [provisional] }
  match engine with
  | Except.error e => (createCompensate db1 freshId, CreateOutcome.failure e)
  | Except.ok dockerId =>
      if updateOk then
        let updated : ContainerRec :=
          { provisional with dockerId := some dockerId, status := "CREATED" }
        ({ db1 with containers :=
            db1.containers.map (fun c => if c.id == freshId then updated else c) },
         CreateOutcome.success updated)
      else
        (createCompensate db1 freshId,
         CreateOutcome.failure "update after create failed")

/-! ## Concrete fixtures used by witnesses and counterexamples -/

def alice : UserRec := { id := "alice", role := "MEMBER" }

def bob : UserRec := { id := "bob", role := "MEMBER" }

def c1rec : ContainerRec :=
  { id := "c1", dockerId := some "d1", status := "RUNNING", ownerId := "alice" }

def db0 : DB := { containers := [c1rec], users := [alice, bob], logs := [] }

def w0 : World := { db := db0, activeSessions := [] }

def s0 : ConsoleSession :=
  { socketId := "sock1", containerId := "c1", userId := "alice"
  , dockerExec := true, hasStream := true, isActive := true
  , startTime := 100, commandHistory := [] }

def sIdle : ConsoleSession :=
  { socketId := "sock2", containerId := "c1", userId := "alice"
  , dockerExec := false, hasStream := false, isActive := false
  , startTime := 100, commandHistory := [] }

/-- an engine whose stats call always resolves. -/
def engOk : String → Except String String := fun _ => Except.ok "statsblob"

/-- a stats sample with positive deltas and two online CPUs:
`cpuDelta = 1`, `systemDelta = 2`. -/
def statsEx : DockerStats :=
  { cpu_stats :=
      { cpu_usage := { total_usage := 1 }
      , system_cpu_usage := 2
      , online_cpus := some 2 }
  , precpu_stats :=
      { cpu_usage := some { total_usage := 0 }
      , system_cpu_usage := some 0 }
  , memory_stats := { usage := some 50, limit := some 100 } }

/-- a stats sample with `systemDelta = 0` and memory limit `0`. -/
def statsZero : DockerStats :=
  { cpu_stats :=
      { cpu_usage := { total_usage := 5 }
      , system_cpu_usage := 7
      , online_cpus := some 4 }
  , precpu_stats :=
      { cpu_usage := some { total_usage := 3 }
      , system_cpu_usage := some 7 }
  , memory_stats := { usage := some 50, limit := some 0 } }

def inp0 : CreateInput := { name := "web", image := "node:18-alpine", userId := "alice" }

/-- the timer installed by `stats:subscribe` on `c1` with interval 2000. -/
def timer0 : StatsTimer := { intervalMs := 2000, dockerId := "d1" }

/-- the timer installed by `stats:subscribe` on `c1` with interval 500:
the delay is clamped to 1000. -/
def timer500 : StatsTimer := { intervalMs := 1000, dockerId := "d1" }

/-! ## Helper lemmas -/

theorem isDigit_eq_false_of_ge (c : Char) (h : 58 ≤ c.toNat) : c.isDigit = false := by
  simp only [Char.isDigit, Bool.and_eq_false_iff]
  right
  simp only [decide_eq_false_iff_not]
  rw [UInt32.le_def, BitVec.le_def]
  have e1 : c.val.toBitVec.toNat = c.toNat := rfl
  have e2 : (UInt32.toBitVec 57).toNat = 57 := rfl
  omega

theorem toNat_ofNat_valid (n : ℕ) (h : n.isValidChar) : (Char.ofNat n).toNat = n := by
  unfold Char.ofNat
  rw [dif_pos h]
  rfl

theorem toLower_eq_self_of_isDigit (c : Char) (h : c.isDigit = true) : c.toLower = c := by
  simp only [Char.isDigit, Bool.and_eq_true, decide_eq_true_eq] at h
  have h2 : c.val.toNat ≤ 57 := by
    have h3 := h.2
    rw [UInt32.le_def, BitVec.le_def] at h3
    exact h3
  unfold Char.toLower
  rw [if_neg]
  simp only [Char.toNat]
  omega

theorem isDigit_toLower (c : Char) : (c.toLower).isDigit = c.isDigit := by
  unfold Char.toLower
  by_cases h : c.toNat ≥ 65 ∧ c.toNat ≤ 90
  · rw [if_pos h]
    have hv : (c.toNat + 32).isValidChar := by
      unfold Nat.isValidChar
      left
      omega
    have ht : (Char.ofNat (c.toNat + 32)).toNat = c.toNat + 32 := toNat_ofNat_valid _ hv
    have hd1 : (Char.ofNat (c.toNat + 32)).isDigit = false :=
      isDigit_eq_false_of_ge _ (by omega)
    have hd2 : c.isDigit = false := isDigit_eq_false_of_ge _ (by omega)
    rw [hd1, hd2]
  · rw [if_neg h]

theorem units_cases (u : Char) (m : ℕ) (h : units u = some m) :
    u = 'b' ∨ u = 'k' ∨ u = 'm' ∨ u = 'g' := by
  unfold units at h
  split_ifs at h with h1 h2 h3 h4
  · exact Or.inl h1
  · exact Or.inr (Or.inl h2)
  · exact Or.inr (Or.inr (Or.inl h3))
  · exact Or.inr (Or.inr (Or.inr h4))

theorem unitChar_not_digit (u : Char) (m : ℕ) (h : units u = some m) :
    u.isDigit = false := by
  rcases units_cases u m h with h | h | h | h <;> subst h <;> decide

theorem map_toLower_digits (ds : List Char) (h : ∀ c ∈ ds, c.isDigit = true) :
    ds.map Char.toLower = ds := by
  have h2 : ds.map Char.toLower = ds.map id :=
    List.map_congr_left (fun c hc => toLower_eq_self_of_isDigit c (h c hc))
  simpa using h2

theorem takeWhile_dropWhile_all {α : Type} (p : α → Bool) (xs : List α)
    (hx : ∀ x ∈ xs, p x = true) :
    xs.takeWhile p = xs ∧ xs.dropWhile p = [] := by
  induction xs with
  | nil => simp
  | cons a as ih =>
      have ha : p a = true := hx a (by simp)
      have ih2 := ih (fun x hmem => hx x (List.mem_cons_of_mem _ hmem))
      simp [List.takeWhile_cons, List.dropWhile_cons, ha, ih2.1, ih2.2]

theorem takeWhile_dropWhile_append_cons {α : Type} (p : α → Bool) (xs : List α)
    (u : α) (rest : List α) (hx : ∀ x ∈ xs, p x = true) (hu : p u = false) :
    (xs ++ u :: rest).takeWhile p = xs ∧ (xs ++ u :: rest).dropWhile p = u :: rest := by
  induction xs with
  | nil => simp [List.takeWhile_cons, List.dropWhile_cons, hu]
  | cons a as ih =>
      have ha : p a = true := hx a (by simp)
      have ih2 := ih (fun x hmem => hx x (List.mem_cons_of_mem _ hmem))
      simp [List.takeWhile_cons, List.dropWhile_cons, ha, ih2.1, ih2.2]

theorem memDigitsThenUnit_digits (ds : List Char) (h : ∀ c ∈ ds, c.isDigit = true) :
    memDigitsThenUnit ds = true := by
  induction ds with
  | nil => rfl
  | cons c cs ih =>
      have hc : c.isDigit = true := h c (by simp)
      have ih2 := ih (fun x hmem => h x (List.mem_cons_of_mem _ hmem))
      cases cs with
      | nil => simp [memDigitsThenUnit, hc]
      | cons c2 cs2 => simp [memDigitsThenUnit, hc, ih2]

theorem memDigitsThenUnit_append_unit (ds : List Char) (u : Char)
    (h : ∀ c ∈ ds, c.isDigit = true) (hu : isMemUnit u = true) :
    memDigitsThenUnit (ds ++ [u]) = true := by
  induction ds with
  | nil => simp [memDigitsThenUnit, hu]
  | cons c cs ih =>
      have hc : c.isDigit = true := h c (by simp)
      have ih2 := ih (fun x hmem => h x (List.mem_cons_of_mem _ hmem))
      cases cs with
      | nil => simp [memDigitsThenUnit, hc, hu]
      | cons c2 cs2 =>
          have : (c :: c2 :: cs2) ++ [u] = c :: ((c2 :: cs2) ++ [u]) := rfl
          rw [this]
          have h2 : (c2 :: cs2) ++ [u] = c2 :: (cs2 ++ [u]) := rfl
          rw [h2] at ih2 ⊢
          simp [memDigitsThenUnit, hc, ih2]

theorem memShape_true_of_decomp (s1 s2 : List Char) (h1 : s1 ≠ [])
    (hd : ∀ c ∈ s1, c.isDigit = true)
    (h2 : s2 = [] ∨ ∃ u, s2 = [u] ∧ isMemUnit u = true) :
    memShape (s1 ++ s2) = true := by
  cases s1 with
  | nil => exact absurd rfl h1
  | cons c cs =>
      have hc : c.isDigit = true := hd c (by simp)
      have hcs : ∀ x ∈ cs, x.isDigit = true :=
        fun x hmem => hd x (List.mem_cons_of_mem _ hmem)
      rcases h2 with h2 | ⟨u, h2, hu⟩
      · subst h2
        simp [memShape, hc, memDigitsThenUnit_digits cs hcs]
      · subst h2
        show memShape (c :: (cs ++ [u])) = true
        simp [memShape, hc, memDigitsThenUnit_append_unit cs u hcs hu]

theorem find?_filter_ne {β : Type} (l : List (String × β)) (k : String) :
    (l.filter (fun p => p.1 != k)).find? (fun p => p.1 == k) = none := by
  induction l with
  | nil => rfl
  | cons a l ih =>
      by_cases h : a.1 = k
      · simp [List.filter_cons, List.find?_cons, h, ih]
      · simp [List.filter_cons, List.find?_cons, h, ih]

theorem countDisconnect_logCreate_disconnect (db : DB) (e : LogEntry)
    (h : e.command = "CONSOLE_DISCONNECT") :
    countDisconnect (db.logCreate e) = countDisconnect db + 1 := by
  simp [countDisconnect, DB.logCreate, List.filter_append, h]

/-! ## Claim theorems -/

/-- C7: for every stats sample, the percentage computations of
`ContainerManager.getContainerStats` (and the Windows handler's
`calculateCPUPercent`) never divide by zero: with `systemDelta ≤ 0` the
reported CPU percentage is exactly 0, and with memory limit 0 the reported
memory percentage is exactly 0. -/
theorem stats_percentages_never_divide_by_zero (s : DockerStats) :
    (systemDelta s ≤ 0 → (getContainerStats s).cpuPercent = 0) ∧
    (memoryLimitOf s = 0 → (getContainerStats s).memoryPercent = 0) ∧
    (systemDelta s ≤ 0 → calculateCPUPercent s = 0) := by
  refine ⟨fun h => ?_, fun h => ?_, fun h => ?_⟩
  · simp [getContainerStats, not_lt.2 h]
  · simp [getContainerStats, h]
  · have hneg : ¬ (systemDelta s > 0 ∧ cpuDelta s > 0) :=
      fun hc => absurd hc.1 (not_lt.2 h)
    unfold calculateCPUPercent
    rw [if_neg hneg]

/-- C7 witness: the divide-by-zero guards evaluated at the concrete sample
`statsZero` (whose `systemDelta` is `7 - 7 = 0` and memory limit is 0). -/
theorem stats_percentages_never_divide_by_zero_witness :
    (getContainerStats statsZero).cpuPercent = 0 ∧
    (getContainerStats statsZero).memoryPercent = 0 ∧
    calculateCPUPercent statsZero = 0 := by
  refine ⟨(stats_percentages_never_divide_by_zero statsZero).1 ?_,
          (stats_percentages_never_divide_by_zero statsZero).2.1 ?_,
          (stats_percentages_never_divide_by_zero statsZero).2.2 ?_⟩
  · norm_num [systemDelta, statsZero]
  · norm_num [memoryLimitOf, statsZero]
  · norm_num [systemDelta, statsZero]

/-- C3 counterexample: at the sample `statsEx` (`cpuDelta = 1`,
`systemDelta = 2`, `online_cpus = 2`) `ContainerManager.getContainerStats`
reports 50, while the claimed formula
`(cpuDelta / systemDelta) * onlineCPUs * 100` gives 100: the manager's CPU
formula has no online-CPU factor. -/
theorem getContainerStats_cpu_formula_counterexample :
    (getContainerStats statsEx).cpuPercent ≠
      (cpuDelta statsEx / systemDelta statsEx) * (onlineCpusOr1 statsEx : ℚ) * 100 := by
  norm_num [getContainerStats, statsEx, cpuDelta, systemDelta, onlineCpusOr1]

/-- C3 amended: `ContainerManager.getContainerStats` computes the CPU
percentage as `(cpuDelta / systemDelta) * 100`, with no online-CPU factor;
the claimed `* onlineCPUs` factor appears only in
`WindowsConsoleHandler.calculateCPUPercent`, which computes
`(cpuDelta / systemDelta) * onlineCPUs * 100` when both deltas are
positive. -/
theorem cpu_percent_formulas (s : DockerStats)
    (hs : 0 < systemDelta s) (hc : 0 < cpuDelta s) :
    (getContainerStats s).cpuPercent = (cpuDelta s / systemDelta s) * 100 ∧
    calculateCPUPercent s =
      (cpuDelta s / systemDelta s) * (onlineCpusOr1 s : ℚ) * 100 := by
  constructor
  · simp [getContainerStats, hs]
  · unfold calculateCPUPercent
    rw [if_pos ⟨hs, hc⟩]

/-- C3 amended witness: both formulas evaluated at the concrete sample
`statsEx`, whose deltas are positive. -/
theorem cpu_percent_formulas_witness :
    (getContainerStats statsEx).cpuPercent =
        (cpuDelta statsEx / systemDelta statsEx) * 100 ∧
    calculateCPUPercent statsEx =
      (cpuDelta statsEx / systemDelta statsEx) * (onlineCpusOr1 statsEx : ℚ) * 100 :=
  cpu_percent_formulas statsEx (by norm_num [systemDelta, statsEx])
    (by norm_num [cpuDelta, statsEx])

/-- C10: while a session is not ACTIVE (inactive flag or absent stream),
`sendInput` is a silent no-op — no stream write, no notification, state
unchanged — whereas `sendCommand` in the same situation emits exactly the
'Console session not active' error notification. -/
theorem sendInput_inactive_silent (w : World) (s : ConsoleSession)
    (input command : String) (now : ℕ) (wk1 wk2 : Bool)
    (h : s.isActive = false ∨ s.hasStream = false) :
    ConsoleSession.sendInput s input wk1 = (s, []) ∧
    ConsoleSession.sendCommand w s command now wk2 =
      (w, s, [Ev.emitMsg "console:error" "Console session not active"]) := by
  have hcond : (!s.isActive || !s.hasStream) = true := by
    rcases h with h | h <;> simp [h]
  constructor
  · unfold ConsoleSession.sendInput
    rw [if_pos hcond]
  · unfold ConsoleSession.sendCommand
    rw [if_pos hcond]

/-- C10 witness: the inactive session `sIdle` with a sample input and
command. -/
theorem sendInput_inactive_silent_witness :
    ConsoleSession.sendInput sIdle "x" true = (sIdle, []) ∧
    ConsoleSession.sendCommand w0 sIdle "ls" 5 true =
      (w0, sIdle, [Ev.emitMsg "console:error" "Console session not active"]) :=
  sendInput_inactive_silent w0 sIdle "x" "ls" 5 true true (Or.inl rfl)

theorem cleanup_registry_entry_removed (w : World) (s : ConsoleSession) (t : ℕ) :
    ((ConsoleSession.cleanup w s t).1.activeSessions.find?
      (fun p => p.1 == s.socketId)) = none := by
  unfold ConsoleSession.cleanup
  exact find?_filter_ne _ _

theorem cleanup_adds_one_disconnect_row (w : World) (s : ConsoleSession) (t : ℕ) :
    countDisconnect (ConsoleSession.cleanup w s t).1.db = countDisconnect w.db + 1 := by
  unfold ConsoleSession.cleanup
  exact countDisconnect_logCreate_disconnect _ _ rfl

theorem cleanup_keeps_socketId (w : World) (s : ConsoleSession) (t : ℕ) :
    (ConsoleSession.cleanup w s t).2.1.socketId = s.socketId := rfl

/-- C4 counterexample: invoking `cleanup()` twice on the concrete session
`s0` appends TWO CONSOLE_DISCONNECT log rows to the (initially empty) log
table, not exactly one as claimed: each invocation unconditionally appends
its own row. -/
theorem cleanup_twice_two_disconnect_rows :
    countDisconnect (ConsoleSession.cleanup
      (ConsoleSession.cleanup w0 s0 200).1
      (ConsoleSession.cleanup w0 s0 200).2.1 300).1.db = 2 ∧
    (2 : ℕ) ≠ 1 := by
  exact ⟨rfl, by decide⟩

/-- C4 amended: `cleanup()` invoked twice removes the Session Registry
entry for the connection and leaves the session inactive (that part is
idempotent), but each invocation appends its own CONSOLE_DISCONNECT log
row, so two invocations produce exactly two rows in total, not one. -/
theorem cleanup_twice (w : World) (s : ConsoleSession) (t1 t2 : ℕ) :
    ((ConsoleSession.cleanup (ConsoleSession.cleanup w s t1).1
        (ConsoleSession.cleanup w s t1).2.1 t2).1.activeSessions.find?
          (fun p => p.1 == s.socketId)) = none ∧
    (ConsoleSession.cleanup (ConsoleSession.cleanup w s t1).1
        (ConsoleSession.cleanup w s t1).2.1 t2).2.1.isActive = false ∧
    countDisconnect (ConsoleSession.cleanup (ConsoleSession.cleanup w s t1).1
        (ConsoleSession.cleanup w s t1).2.1 t2).1.db = countDisconnect w.db + 2 := by
  refine ⟨?_, rfl, ?_⟩
  · have h := cleanup_registry_entry_removed (ConsoleSession.cleanup w s t1).1
      (ConsoleSession.cleanup w s t1).2.1 t2
    rwa [cleanup_keeps_socketId] at h
  · rw [cleanup_adds_one_disconnect_row, cleanup_adds_one_disconnect_row]

/-- C5: a `console:connect` request by a user who is neither the
container's owner nor an administrator fails with the access-denied error
notification, leaves the session inactive (CLOSED) and unregistered, and
performs NO engine call. -/
theorem console_connect_denied_no_engine_call (w : World) (sid uid cid : String)
    (execOk : Bool) (now : ℕ) (c : ContainerRec) (u : UserRec)
    (hcid : cid ≠ "")
    (hdup : w.activeSessions.find? (fun p => p.1 == sid) = none)
    (hc : w.db.findContainer cid = some c)
    (hu : w.db.findUser uid = some u)
    (hrole : u.role ≠ "ADMIN")
    (howner : c.ownerId ≠ uid) :
    Ev.emitErr "console:error" "Failed to start console session"
        "Access denied to this container" ∈ (consoleConnect w sid uid cid execOk now).2.2 ∧
    countEngineCalls (consoleConnect w sid uid cid execOk now).2.2 = 0 ∧
    (∃ s2, (consoleConnect w sid uid cid execOk now).2.1 = some s2 ∧
        s2.isActive = false) ∧
    (consoleConnect w sid uid cid execOk now).1.activeSessions.find?
      (fun p => p.1 == sid) = none := by
  have h1 : (cid == "") = false := by simp [hcid]
  have hown : (u.role != "ADMIN" && c.ownerId != uid) = true := by
    simp [hrole, howner]
  unfold consoleConnect ConsoleSession.start ConsoleSession.startCatch
    ConsoleSession.cleanup
  simp [h1, hdup, hc, hu, hown, countEngineCalls, Ev.isEngine, find?_filter_ne]

/-- C5 witness: `bob` (a MEMBER who does not own `c1`) connecting to
`alice`'s container `c1`. -/
theorem console_connect_denied_no_engine_call_witness :
    Ev.emitErr "console:error" "Failed to start console session"
        "Access denied to this container" ∈ (consoleConnect w0 "sock9" "bob" "c1" true 7).2.2 ∧
    countEngineCalls (consoleConnect w0 "sock9" "bob" "c1" true 7).2.2 = 0 ∧
    (∃ s2, (consoleConnect w0 "sock9" "bob" "c1" true 7).2.1 = some s2 ∧
        s2.isActive = false) ∧
    (consoleConnect w0 "sock9" "bob" "c1" true 7).1.activeSessions.find?
      (fun p => p.1 == "sock9") = none :=
  console_connect_denied_no_engine_call w0 "sock9" "bob" "c1" true 7 c1rec bob
    (by decide) (by decide) (by decide) (by decide) (by decide) (by decide)

/-- C9: in `ConsoleSession.start` the container-existence check precedes
the ownership check: a `console:connect` naming an id with no persisted
record yields the 'Container not found' failure for any requester, while an
existing container of another user yields 'Access denied to this container'
for a non-admin non-owner, and the two error texts differ, so the requester
can tell the two cases apart. -/
theorem console_connect_not_found_before_ownership (w w2 : World)
    (sid uid cid sid2 uid2 cid2 : String) (e1 e2 : Bool) (n1 n2 : ℕ)
    (c : ContainerRec) (u : UserRec)
    (hcid1 : cid ≠ "")
    (hdup1 : w.activeSessions.find? (fun p => p.1 == sid) = none)
    (hnone : w.db.findContainer cid = none)
    (hcid2 : cid2 ≠ "")
    (hdup2 : w2.activeSessions.find? (fun p => p.1 == sid2) = none)
    (hc2 : w2.db.findContainer cid2 = some c)
    (hu2 : w2.db.findUser uid2 = some u)
    (hrole : u.role ≠ "ADMIN")
    (howner : c.ownerId ≠ uid2) :
    Ev.emitErr "console:error" "Failed to start console session" "Container not found"
        ∈ (consoleConnect w sid uid cid e1 n1).2.2 ∧
    Ev.emitErr "console:error" "Failed to start console session"
        "Access denied to this container" ∈ (consoleConnect w2 sid2 uid2 cid2 e2 n2).2.2 ∧
    ("Container not found" : String) ≠ "Access denied to this container" := by
  have h1 : (cid == "") = false := by simp [hcid1]
  have h2 : (cid2 == "") = false := by simp [hcid2]
  have hown : (u.role != "ADMIN" && c.ownerId != uid2) = true := by
    simp [hrole, howner]
  refine ⟨?_, ?_, by decide⟩
  · unfold consoleConnect ConsoleSession.start ConsoleSession.startCatch
      ConsoleSession.cleanup
    simp [h1, hdup1, hnone]
  · unfold consoleConnect ConsoleSession.start ConsoleSession.startCatch
      ConsoleSession.cleanup
    simp [h2, hdup2, hc2, hu2, hown]

/-- C9 witness: `bob` probing the nonexistent id `nope` and `alice`'s
existing container `c1`. -/
theorem console_connect_not_found_before_ownership_witness :
    Ev.emitErr "console:error" "Failed to start console session" "Container not found"
        ∈ (consoleConnect w0 "sockA" "bob" "nope" true 3).2.2 ∧
    Ev.emitErr "console:error" "Failed to start console session"
        "Access denied to this container" ∈ (consoleConnect w0 "sockB" "bob" "c1" true 4).2.2 ∧
    ("Container not found" : String) ≠ "Access denied to this container" :=
  console_connect_not_found_before_ownership w0 w0 "sockA" "bob" "nope" "sockB" "bob" "c1"
    true true 3 4 c1rec bob (by decide) (by decide) (by decide) (by decide) (by decide)
    (by decide) (by decide) (by decide) (by decide)

theorem statsSubscribe_subscribed_elim (db : DB) (user : UserRec) (cid : String)
    (interval : ℕ) (prev : Option StatsTimer)
    (hsub : Ev.emitSubscribed cid interval ∈ (statsSubscribe db user cid interval prev).1) :
    ∃ container : ContainerRec, db.findContainer cid = some container ∧
      (statsSubscribe db user cid interval prev).1 =
        [Ev.ownershipEval user.role container.ownerId user.id,
         Ev.emitSubscribed cid interval] ∧
      (statsSubscribe db user cid interval prev).2 =
        some { intervalMs := clampInterval interval
             , dockerId := container.dockerId.getD "" } := by
  unfold statsSubscribe at hsub ⊢
  by_cases h0 : (cid == "") = true
  · simp [h0] at hsub
  · rw [if_neg h0] at hsub ⊢
    rcases hfind : db.findContainer cid with _ | container
    · simp [hfind] at hsub
    · rw [hfind] at hsub
      dsimp only at hsub ⊢
      by_cases hown : (user.role != "ADMIN" && container.ownerId != user.id) = true
      · simp [hown] at hsub
      · have hown2 : (user.role != "ADMIN" && container.ownerId != user.id) = false := by
          revert hown
          cases user.role != "ADMIN" && container.ownerId != user.id <;> simp
        rw [hown2] at hsub ⊢
        by_cases hrun : (container.dockerId.isNone || container.status != "RUNNING") = true
        · simp [hrun] at hsub
        · have hrun2 : (container.dockerId.isNone || container.status != "RUNNING") = false := by
            revert hrun
            cases container.dockerId.isNone || container.status != "RUNNING" <;> simp
          rw [hrun2] at hsub ⊢
          simp only [Bool.false_eq_true, if_false] at hsub ⊢
          exact ⟨container, rfl, rfl, rfl⟩

/-- C2 counterexample: after `alice` subscribes to stats for her container
`c1` (interval 2000), a periodic tick of the installed timer performs the
engine stats fetch with NO ownership evaluation of its own — the tick trace
contains one engine call and zero ownership-test evaluations, refuting the
claim that every periodic fetch is preceded by its own ownership check. -/
theorem stats_tick_without_ownership_eval_counterexample :
    (statsSubscribe db0 alice "c1" 2000 none).2 = some timer0 ∧
    countEngineCalls (statsTick timer0 engOk "c1") = 1 ∧
    countOwnershipEvals (statsTick timer0 engOk "c1") = 0 :=
  ⟨rfl, rfl, rfl⟩

/-- C2 amended: the ownership test is evaluated exactly once, inside the
`stats:subscribe` handler before the timer is installed; every periodic
tick then performs the engine stats fetch using the Docker id captured at
subscribe time and performs no ownership evaluation of its own (the
subscribe-time check is in effect cached for the lifetime of the timer). -/
theorem stats_subscription_ownership_checked_once (db : DB) (user : UserRec)
    (cid : String) (interval : ℕ) (prev : Option StatsTimer)
    (eng : String → Except String String)
    (hsub : Ev.emitSubscribed cid interval ∈ (statsSubscribe db user cid interval prev).1) :
    countOwnershipEvals (statsSubscribe db user cid interval prev).1 = 1 ∧
    (∀ t : StatsTimer, countOwnershipEvals (statsTick t eng cid) = 0 ∧
        countEngineCalls (statsTick t eng cid) = 1) := by
  obtain ⟨container, hfind, htrace, htimer⟩ :=
    statsSubscribe_subscribed_elim db user cid interval prev hsub
  constructor
  · rw [htrace]
    rfl
  · intro t
    rcases h : eng t.dockerId with e | st <;>
      simp [statsTick, h, countOwnershipEvals, countEngineCalls,
        Ev.isEngine, Ev.isOwnershipEval]

/-- C2 amended witness: `alice` subscribing to her own container `c1`. -/
theorem stats_subscription_ownership_checked_once_witness :
    countOwnershipEvals (statsSubscribe db0 alice "c1" 2000 none).1 = 1 ∧
    (∀ t : StatsTimer, countOwnershipEvals (statsTick t engOk "c1") = 0 ∧
        countEngineCalls (statsTick t engOk "c1") = 1) :=
  stats_subscription_ownership_checked_once db0 alice "c1" 2000 none engOk (by decide)

/-- C6 counterexample: a `stats:subscribe` with interval 500 installs a
timer with the clamped delay 1000 ms, but the `stats:subscribed`
acknowledgment carries the UNCLAMPED requested value 500, not 1000 as
claimed. -/
theorem stats_subscribe_ack_unclamped_counterexample :
    (statsSubscribe db0 alice "c1" 500 none).2 = some timer500 ∧
    Ev.emitSubscribed "c1" 500 ∈ (statsSubscribe db0 alice "c1" 500 none).1 ∧
    Ev.emitSubscribed "c1" 1000 ∉ (statsSubscribe db0 alice "c1" 500 none).1 := by
  refine ⟨rfl, by decide, by decide⟩

/-- C6 amended: the polling interval is clamped to `[1000, 10000]` ms
before the timer is installed (a request of 500 yields a 1000 ms timer),
but the `stats:subscribed` acknowledgment echoes the requested interval
unmodified rather than the clamped value. -/
theorem stats_subscribe_clamps_timer_echoes_request (db : DB) (user : UserRec)
    (cid : String) (interval : ℕ) (prev : Option StatsTimer)
    (hsub : Ev.emitSubscribed cid interval ∈ (statsSubscribe db user cid interval prev).1) :
    (∃ t : StatsTimer, (statsSubscribe db user cid interval prev).2 = some t ∧
        t.intervalMs = max 1000 (min 10000 interval)) ∧
    (∀ j : ℕ, Ev.emitSubscribed cid j ∈ (statsSubscribe db user cid interval prev).1 →
        j = interval) := by
  obtain ⟨container, hfind, htrace, htimer⟩ :=
    statsSubscribe_subscribed_elim db user cid interval prev hsub
  constructor
  · exact ⟨_, htimer, rfl⟩
  · intro j hj
    rw [htrace] at hj
    simp at hj
    exact hj

/-- C6 amended witness: `alice` subscribing to `c1` with interval 500. -/
theorem stats_subscribe_clamps_timer_echoes_request_witness :
    (∃ t : StatsTimer, (statsSubscribe db0 alice "c1" 500 none).2 = some t ∧
        t.intervalMs = max 1000 (min 10000 500)) ∧
    (∀ j : ℕ, Ev.emitSubscribed "c1" j ∈ (statsSubscribe db0 alice "c1" 500 none).1 →
        j = 500) :=
  stats_subscribe_clamps_timer_echoes_request db0 alice "c1" 500 none (by decide)

/-- C1: when the engine `createContainer` call fails after the provisional
record was written, the create handler rethrows the original error, but the
compensating delete never runs: the catch block's
`prisma.container.delete({ where: { id: container?.id } })` references the
identifier `container`, which is `const`-declared inside the try block and
therefore out of scope in the catch block; evaluating it throws a
ReferenceError that the inner catch swallows.  Hence the provisional
CREATED record (no Docker id) SURVIVES every failed create, contradicting
the claimed compensating action. -/
theorem create_engine_failure_keeps_provisional_record (db : DB)
    (inp : CreateInput) (freshId e d : String) (updateOk : Bool)
    (hfresh : db.findContainer freshId = none) :
    (createHandler db inp freshId (Except.error e) updateOk).2 =
        CreateOutcome.failure e ∧
    (createHandler db inp freshId (Except.error e) updateOk).1.findContainer freshId =
      some { id := freshId, dockerId := none, status := "CREATED"
           , ownerId := inp.userId } ∧
    (createHandler db inp freshId (Except.ok d) false).2 =
        CreateOutcome.failure "update after create failed" ∧
    (createHandler db inp freshId (Except.ok d) false).1.findContainer freshId =
      some { id := freshId, dockerId := none, status := "CREATED"
           , ownerId := inp.userId } := by
  unfold createHandler createCompensate lookupIdent
  rw [if_neg (by decide)]
  refine ⟨rfl, ?_, rfl, ?_⟩ <;>
    · unfold DB.findContainer at hfresh ⊢
      simp [List.find?_append, hfresh]

/-- C1 witness: a concrete failed create (`alice` creating `web` with a
fresh record id `c9`, engine unreachable): the handler propagates the
engine error and the provisional CREATED record for `c9` is still in the
database afterwards. -/
theorem create_engine_failure_keeps_provisional_record_witness :
    (createHandler db0 inp0 "c9" (Except.error "EngineError: daemon unreachable") true).2 =
        CreateOutcome.failure "EngineError: daemon unreachable" ∧
    (createHandler db0 inp0 "c9"
        (Except.error "EngineError: daemon unreachable") true).1.findContainer "c9" =
      some { id := "c9", dockerId := none, status := "CREATED", ownerId := "alice" } ∧
    (createHandler db0 inp0 "c9" (Except.ok "d9") false).2 =
        CreateOutcome.failure "update after create failed" ∧
    (createHandler db0 inp0 "c9" (Except.ok "d9") false).1.findContainer "c9" =
      some { id := "c9", dockerId := none, status := "CREATED", ownerId := "alice" } :=
  create_engine_failure_keeps_provisional_record db0 inp0 "c9"
    "EngineError: daemon unreachable" "d9" true (by decide)

theorem parseMemory_default_of_not_memShape (s : List Char) (h : memShape s = false) :
    parseMemory s = 512 * 1024 * 1024 := by
  unfold parseMemory
  by_cases hds : (s.map Char.toLower).takeWhile Char.isDigit = []
  · rw [hds]
    rfl
  · rcases hB : (s.map Char.toLower).dropWhile Char.isDigit with _ | ⟨c, rest2⟩
    · exfalso
      have hsplit := List.takeWhile_append_dropWhile Char.isDigit (s.map Char.toLower)
      rw [hB, List.append_nil] at hsplit
      have hdig : ∀ x ∈ s, x.isDigit = true := by
        intro x hx
        have hmem : x.toLower ∈ (s.map Char.toLower).takeWhile Char.isDigit := by
          rw [hsplit]
          exact List.mem_map_of_mem _ hx
        have hd := List.mem_takeWhile_imp hmem
        rwa [isDigit_toLower] at hd
      have hne : s ≠ [] := by
        intro h0
        subst h0
        exact hds (by simp)
      have hshape := memShape_true_of_decomp s [] hne hdig (Or.inl rfl)
      rw [List.append_nil] at hshape
      rw [hshape] at h
      exact Bool.noConfusion h
    · rcases rest2 with _ | ⟨c2, rest3⟩
      · rcases hun : units c with _ | m
        · unfold parseMemoryAux
          rw [if_neg hds]
          simp [hun]
        · exfalso
          have hsplit := List.takeWhile_append_dropWhile Char.isDigit (s.map Char.toLower)
          rw [hB] at hsplit
          have hdecomp := (List.map_eq_append_iff).1 hsplit.symm
          rcases hdecomp with ⟨s1, s2, hS, hmap1, hmap2⟩
          rcases s2 with _ | ⟨uc, s2t⟩
          · simp at hmap2
          · rcases s2t with _ | ⟨x, xs⟩
            · simp only [List.map_cons, List.map_nil, List.cons.injEq, and_true] at hmap2
              have hdig1 : ∀ x ∈ s1, x.isDigit = true := by
                intro x hx
                have hmem : x.toLower ∈ List.map Char.toLower s1 :=
                  List.mem_map_of_mem _ hx
                rw [hmap1] at hmem
                have hd := List.mem_takeWhile_imp hmem
                rwa [isDigit_toLower] at hd
              have hs1ne : s1 ≠ [] := by
                intro h0
                subst h0
                simp only [List.map_nil] at hmap1
                exact hds hmap1.symm
              have hunit : isMemUnit uc = true := by
                unfold isMemUnit
                rw [hmap2, hun]
                rfl
              have hshape := memShape_true_of_decomp s1 [uc] hs1ne hdig1
                (Or.inr ⟨uc, rfl, hunit⟩)
              rw [← hS] at hshape
              rw [hshape] at h
              exact Bool.noConfusion h
            · simp at hmap2
      · unfold parseMemoryAux
        rw [if_neg hds]

/-- C8: the resource translation of a create spec: a memory string of
digits followed by an optional unit letter `b`/`k`/`m`/`g` (the source
lowercases first, so the letter is matched case-insensitively) is converted
to `value * (1 | 1024 | 1024² | 1024³)`, with a missing unit meaning bytes;
any string not of that shape yields the default `512 * 1024 * 1024`; and
the CPU share is translated to `CpuQuota = floor(cpus * 100000)` over
`CpuPeriod = 100000` in the engine `HostConfig`. -/
theorem parseMemory_resource_translation (ds : List Char) (u : Char) (m : ℕ)
    (s memory : List Char) (cpus : ℚ)
    (hne : ds ≠ []) (hdig : ∀ c ∈ ds, c.isDigit = true)
    (hu : units u.toLower = some m)
    (hs : memShape s = false) :
    parseMemory (ds ++ [u]) = parseIntDigits ds * m ∧
    parseMemory ds = parseIntDigits ds ∧
    parseMemory s = 512 * 1024 * 1024 ∧
    (hostConfig memory cpus).Memory = parseMemory memory ∧
    (hostConfig memory cpus).CpuQuota = Int.floor (cpus * 100000) ∧
    (hostConfig memory cpus).CpuPeriod = 100000 := by
  refine ⟨?_, ?_, parseMemory_default_of_not_memShape s hs, rfl, rfl, rfl⟩
  · have hul : (u.toLower).isDigit = false := unitChar_not_digit _ m hu
    have hmap : (ds ++ [u]).map Char.toLower = ds ++ u.toLower :: [] := by
      rw [List.map_append, map_toLower_digits ds hdig]
      rfl
    have htw := takeWhile_dropWhile_append_cons Char.isDigit ds (u.toLower) [] hdig hul
    unfold parseMemory
    rw [hmap, htw.1, htw.2]
    unfold parseMemoryAux
    rw [if_neg hne]
    simp [hu]
  · have hmap : ds.map Char.toLower = ds := map_toLower_digits ds hdig
    have htw := takeWhile_dropWhile_all Char.isDigit ds hdig
    unfold parseMemory
    rw [hmap, htw.1, htw.2]
    unfold parseMemoryAux
    rw [if_neg hne]
    simp

/-- C8 witness: the memory string `512M` (uppercase unit) converts to
`512 * 1024²`, the suffix-free `512` to 512 bytes, the malformed `xy` to
the 512 MiB default, and a CPU share of `1/2` to quota 50000 over period
100000. -/
theorem parseMemory_resource_translation_witness :
    parseMemory (['5', '1', '2'] ++ ['M']) = parseIntDigits ['5', '1', '2'] * (1024 * 1024) ∧
    parseMemory ['5', '1', '2'] = parseIntDigits ['5', '1', '2'] ∧
    parseMemory ['x', 'y'] = 512 * 1024 * 1024 ∧
    (hostConfig ['1', 'g'] (1 / 2)).Memory = parseMemory ['1', 'g'] ∧
    (hostConfig ['1', 'g'] (1 / 2)).CpuQuota = Int.floor ((1 / 2 : ℚ) * 100000) ∧
    (hostConfig ['1', 'g'] (1 / 2)).CpuPeriod = 100000 :=
  parseMemory_resource_translation ['5', '1', '2'] 'M' (1024 * 1024) ['x', 'y']
    ['1', 'g'] (1 / 2) (by decide) (by decide) (by decide) (by decide)

end Ptrelite
